import Mathlib

/-!
Shallow embedding of `audit.py` (actions-rust-lang/audit): the Entry model,
markdown/issue rendering, the summary builder, the GitHub client's
create/update/close logic, and the reconciliation sweep of `run`.

Python strings are modelled as Lean `String`; Python lists as `List`;
the JSON report as a structure mirroring the keys the code reads.
String methods used by the source (`str.startswith`, `str.replace` with a
one-character pattern, `"sep".join`) are modelled character-wise
(`pyStartsWith`, `pyReplaceAt`) or with `String.intercalate` / `String.join`.
-/

set_option autoImplicit false

namespace Audit

/-- The zero-width joiner character `"‍"` used in `format_as_markdown`. -/
def zwj : Char := Char.ofNat 0x200D

/-- Python `s.startswith(pre)`: character-wise prefix test. -/
def pyStartsWith (s pre : String) : Bool :=
  pre.data.isPrefixOf s.data

/-- Python `s.replace("@", "@‍")` on a character list: the pattern is a
single character, so every `'@'` gets a `zwj` inserted right after it. -/
def pyReplaceAtList : List Char → List Char
  | [] => []
  | c :: rest =>
    if c = '@' then '@' :: zwj :: pyReplaceAtList rest
    else c :: pyReplaceAtList rest

/-- Python `s.replace("@", "@‍")` on a `String`. -/
def pyReplaceAt (s : String) : String :=
  String.mk (pyReplaceAtList s.data)

/-- Substring search on character lists: does `pat` occur contiguously? -/
def listContains (pat : List Char) : List Char → Bool
  | [] => pat.isEmpty
  | c :: rest => pat.isPrefixOf (c :: rest) || listContains pat rest

/-- Python `pat in s` (substring containment), used only in theorem statements. -/
def strContains (s pat : String) : Bool :=
  listContains pat.data s.data

/-- The `"package"` object of a finding record: `{"name", "version"}`. -/
structure Package where
  name : String
  version : String
deriving DecidableEq

/-- The `"advisory"` object of a finding record (the fields the code reads). -/
structure Advisory where
  id : String
  package : String
  url : String
  title : String
  description : String
  aliases : List String
  related : List String
deriving DecidableEq

/-- The `"advisory"` key of a raw entry record. Python tests it with
`advisory = self.entry.get("advisory", None)` followed by `if advisory:`, i.e.
by truthiness: `absent` (key missing, `get` yields `None`) and `falsy`
(key present but bound to a falsy value such as the empty mapping `{}`) both
take the else-branch; only `present a` (a non-empty advisory mapping) is
truthy. -/
inductive AdvField where
  | absent : AdvField
  | falsy : AdvField
  | present : Advisory → AdvField
deriving DecidableEq

/-- The `"versions"` object of a finding record: `{"patched", "unaffected"}`. -/
structure Versions where
  patched : List String
  unaffected : List String
deriving DecidableEq

/-- One raw finding record (`self.entry` in class `Entry`): the fields the
code reads. -/
structure RawEntry where
  advisory : AdvField
  package : Package
  versions : Versions
deriving DecidableEq

/-- `class EntryType(enum.Enum)`. -/
inductive EntryType where
  | ERROR : EntryType
  | WARNING : EntryType
deriving BEq, DecidableEq

/-- `EntryType.icon`. -/
def EntryType.icon : EntryType → String
  | .ERROR => "🛑"
  | .WARNING => "⚠️"

/-- `class Entry`. -/
structure Entry where
  entry : RawEntry
  entry_type : EntryType
  warning_type : Option String
deriving DecidableEq

/-- `Entry.id`. -/
def Entry.id (e : Entry) : String :=
  match e.entry.advisory with
  | .present a => a.id
  | _ => "Crate " ++ e.entry.package.name ++ " " ++ e.entry.package.version

/-- `Entry._md_autolink_advisory_id`. -/
def md_autolink_advisory_id (advisory_id : String) : String :=
  if pyStartsWith advisory_id "GHSA-" then
    "[" ++ advisory_id ++ "](https://github.com/advisories/" ++ advisory_id ++ ")"
  else if pyStartsWith advisory_id "CVE-" then
    "[" ++ advisory_id ++ "](https://nvd.nist.gov/vuln/detail/" ++ advisory_id ++ ")"
  else if pyStartsWith advisory_id "RUSTSEC-" then
    "[" ++ advisory_id ++ "](https://rustsec.org/advisories/" ++ advisory_id ++ ")"
  else advisory_id

/-- `Entry._entry_table`. Every `row[0]`/`row[1]` the Python code builds is a
string (never `None`), so the `None` guards in the rendering loop are dead and
rows are modelled as `String × String` pairs. -/
def Entry.entry_table (e : Entry) : String :=
  match e.entry.advisory with
  | .present a =>
    let rows : List (String × String) :=
      [("Details", ""), ("---", "---"),
       ("Package", "`" ++ a.package ++ "`"),
       ("Version", "`" ++ e.entry.package.version ++ "`")]
      ++ (match e.warning_type with
          | some w => [("Warning", w)]
          | none => [])
      ++ [("URL", a.url),
          ("Patched Versions",
            if e.entry.versions.patched.length > 0 then
              String.intercalate " OR " e.entry.versions.patched
            else "n/a")]
      ++ (if e.entry.versions.unaffected.length > 0 then
            [("Unaffected Versions",
              String.intercalate " OR " e.entry.versions.unaffected)]
          else [])
      ++ (if a.aliases.length > 0 then
            [("Aliases",
              String.intercalate ", " (a.aliases.map md_autolink_advisory_id))]
          else [])
      ++ (if a.related.length > 0 then
            [("Related Advisories",
              String.intercalate ", " (a.related.map md_autolink_advisory_id))]
          else [])
    String.join (rows.map (fun r => "| " ++ r.1 ++ " | " ++ r.2 ++ " |\n"))
  | _ =>
    Entry.id e ++ " is yanked.\nSwitch to a different version of `"
      ++ e.entry.package.name ++ "` to resolve this issue.\n"

/-- `Entry.format_as_markdown`. -/
def Entry.format_as_markdown (e : Entry) : String :=
  match e.entry.advisory with
  | .present a =>
    "## " ++ e.entry_type.icon ++ " " ++ a.id ++ ": " ++ a.title ++ "\n\n"
      ++ e.entry_table ++ "\n\n" ++ pyReplaceAt a.description ++ "\n"
  | _ =>
    "## " ++ e.entry_type.icon ++ " " ++ Entry.id e
      ++ " is yanked.\n\nSwitch to a different version of `"
      ++ e.entry.package.name ++ "` to resolve this issue.\n"

/-- `class Issue`. -/
structure Issue where
  title : String
  labels : List String
  assignees : List String
  body : String
  rustsec_id : String
deriving DecidableEq

/-- `Entry.format_as_issue`. -/
def Entry.format_as_issue (e : Entry) (labels assignees : List String) : Issue :=
  match e.entry.advisory with
  | .present a =>
    { title := Entry.id e ++ ": " ++ a.title
      labels := labels
      assignees := assignees
      body := e.entry_table ++ "\n\n" ++ a.description
      rustsec_id := Entry.id e }
  | _ =>
    { title := Entry.id e ++ " is yanked"
      labels := labels
      assignees := assignees
      body := "Switch to a different version of `" ++ e.entry.package.name
        ++ "` to resolve this issue."
      rustsec_id := Entry.id e }

/-- One open issue of the tracker as observed by `_get_existing_issues`
(the fields the code reads: `"title"`, `"body"`, `"url"`). -/
structure TrackedIssue where
  title : String
  body : String
  url : String
deriving DecidableEq

/-- One HTTP mutation/probe the client issues, in order. `create` carries the
payload posted to the issues endpoint; `update` the PATCH of title and body to
an issue's url; `close` the PATCH of `state: closed`; `probe` the assignee
existence check. -/
inductive ApiCall where
  | create (title body : String) (labels assignees : List String) : ApiCall
  | update (url title body : String) : ApiCall
  | close (url : String) : ApiCall
  | probe (assignee : String) : ApiCall
deriving DecidableEq

/-- The loop `for existing_issue in self.existing_issues: if
existing_issue["title"].startswith(issue.rustsec_id): ...` — first issue of
the working set whose title starts with the identity, if any. The loop body
does not mutate the list, so a plain first-match scan is faithful. -/
def findMatch (rustsec_id : String) : List TrackedIssue → Option TrackedIssue
  | [] => none
  | i :: rest =>
    if pyStartsWith i.title rustsec_id then some i
    else findMatch rustsec_id rest

/-- `GitHubClient.create_issue`, as the list of API calls it performs.
`valid a = true` models the assignee existence probe returning status 204.
The method reads but never modifies `self.existing_issues`, and does not add
the newly created issue to it. -/
def create_issue (valid : String → Bool) (existing : List TrackedIssue)
    (issue : Issue) : List ApiCall :=
  match findMatch issue.rustsec_id existing with
  | some ex =>
    if ex.title = issue.title ∧ ex.body = issue.body then []
    else [.update ex.url issue.title issue.body]
  | none =>
    issue.assignees.map ApiCall.probe
      ++ [.create issue.title issue.body issue.labels
            (issue.assignees.filter valid)]

/-- Number of issue-creation POSTs in a call trace. -/
def creationCount (calls : List ApiCall) : Nat :=
  calls.countP (fun c => match c with | .create _ _ _ _ => true | _ => false)

/-- Number of issue-update PATCHes in a call trace. -/
def updateCount (calls : List ApiCall) : Nat :=
  calls.countP (fun c => match c with | .update _ _ _ => true | _ => false)

/-- Python `lst.remove(x)`: delete the first element equal to `x` (no-op here
when absent; the source only calls it on members). -/
def pyRemoveFirst (x : TrackedIssue) : List TrackedIssue → List TrackedIssue
  | [] => []
  | y :: rest => if y = x then rest else y :: pyRemoveFirst x rest

/-- The inner loop of the reconciliation sweep with CPython `for` semantics:
`for ex_issue in lst: if p(ex_issue): lst.remove(ex_issue)`. The list
iterator keeps a cursor `i` into the live list; each step reads `lst[i]`,
advances the cursor, and may shrink the list, so the element that slides into
a removed element's slot is skipped. Fuel `lst.length` suffices: the cursor
grows by one per step while the length never grows, so once fuel runs out the
cursor is already past the end and returning the list unchanged is exact. -/
def pyForRemoveGo (p : TrackedIssue → Bool) :
    Nat → List TrackedIssue → Nat → List TrackedIssue
  | 0, lst, _ => lst
  | fuel + 1, lst, i =>
    if h : i < lst.length then
      let x := lst.get ⟨i, h⟩
      if p x then pyForRemoveGo p fuel (pyRemoveFirst x lst) (i + 1)
      else pyForRemoveGo p fuel lst (i + 1)
    else lst

/-- One pass `for ex_issue in gh_client.existing_issues: if
ex_issue["title"].startswith(entry.id()): gh_client.existing_issues.remove(ex_issue)`. -/
def sweepPass (entryId : String) (lst : List TrackedIssue) : List TrackedIssue :=
  pyForRemoveGo (fun ti => pyStartsWith ti.title entryId) lst.length lst 0

/-- The stale-issue computation of `run` (lines 447-450): one `sweepPass` per
entry, in entry order, over the working set; what is left is then closed. -/
def sweep (entries : List Entry) (existing : List TrackedIssue) :
    List TrackedIssue :=
  entries.foldl (fun ws e => sweepPass (Entry.id e) ws) existing

/-- The close loop of `run` (lines 455-456): every issue still in the working
set after the sweep gets a `close_issue` PATCH. -/
def closeCalls (entries : List Entry) (existing : List TrackedIssue) :
    List ApiCall :=
  (sweep entries existing).map (fun ti => ApiCall.close ti.url)

/-- The `"vulnerabilities"` object of the report: `{"count", "list"}`. -/
structure Vulnerabilities where
  count : Nat
  list : List RawEntry
deriving DecidableEq

/-- The scan report as read by the code. `warnings` models the JSON object
`data["warnings"]` as an association list in key order; JSON object keys are
unique, and the code only iterates `.items()` in that order. -/
structure Report where
  vulnerabilities : Vulnerabilities
  warnings : List (String × List RawEntry)

/-- `create_summary`. -/
def create_summary (data : Report) : String :=
  let num_vulns : Nat := data.vulnerabilities.count
  let num_warnings : Nat :=
    data.warnings.foldl (fun acc kw => acc + kw.2.length) 0
  let num_warning_types : List (String × Nat) :=
    data.warnings.map (fun kw => (kw.1, kw.2.length))
  let vulnS : String :=
    if num_vulns = 0 then "No vulnerabilities found."
    else if num_vulns = 1 then "1 vulnerability found."
    else toString num_vulns ++ " vulnerabilities found."
  let warnS : String :=
    if num_warnings = 0 then "No warnings found."
    else if num_warnings = 1 then "1 warning found."
    else
      let desc := String.intercalate ", "
        (num_warning_types.map (fun kc => toString kc.2 ++ "x " ++ kc.1))
      toString num_warnings ++ " warnings found (" ++ desc ++ ")."
  String.intercalate " " [vulnS, warnS]

/-- `create_entries`. -/
def create_entries (data : Report) : List Entry :=
  data.vulnerabilities.list.map
    (fun v => { entry := v, entry_type := .ERROR, warning_type := none })
  ++ data.warnings.flatMap
       (fun kw => kw.2.map
         (fun w => { entry := w, entry_type := .WARNING, warning_type := some kw.1 }))

/-- The deny-warnings promotion pass of `run` (lines 422-424): when
`INPUT_DENY_WARNINGS == "true"`, every entry's `entry_type` is set to ERROR
in place. -/
def promote (deny_warnings : Bool) (entries : List Entry) : List Entry :=
  if deny_warnings then
    entries.map (fun e => { e with entry_type := .ERROR })
  else entries

/-- The exit step of `run` (lines 458-462): `sys.exit(1)` if any entry has
type ERROR, else `sys.exit(0)`. -/
def exit_code (entries : List Entry) : Nat :=
  if entries.any (fun e => e.entry_type == EntryType.ERROR) then 1 else 0

/-! ### Helper predicates and lemmas -/

/-- Every `'@'` in the list is immediately followed by the zero-width joiner
(in particular no `'@'` is last, and no `'@'` is directly followed by any
original character). -/
def atFollowedByZWJ : List Char → Bool
  | [] => true
  | [c] => decide (c ≠ '@')
  | c :: d :: rest =>
    (decide (c ≠ '@') || decide (d = zwj)) && atFollowedByZWJ (d :: rest)

theorem atFollowedByZWJ_cons (c : Char) (l : List Char) (hc : c ≠ '@')
    (h : atFollowedByZWJ l = true) : atFollowedByZWJ (c :: l) = true := by
  cases l with
  | nil => simp [atFollowedByZWJ, hc]
  | cons d rest =>
    simp only [atFollowedByZWJ, Bool.and_eq_true, Bool.or_eq_true,
      decide_eq_true_eq] at h ⊢
    exact ⟨Or.inl hc, h⟩

theorem pyReplaceAtList_atFollowed (l : List Char) :
    atFollowedByZWJ (pyReplaceAtList l) = true := by
  induction l with
  | nil => rfl
  | cons c rest ih =>
    by_cases hc : c = '@'
    · subst hc
      simp only [pyReplaceAtList, if_pos rfl]
      have h1 : atFollowedByZWJ (zwj :: pyReplaceAtList rest) = true :=
        atFollowedByZWJ_cons zwj _ (by decide) ih
      simp only [atFollowedByZWJ, Bool.and_eq_true, Bool.or_eq_true,
        decide_eq_true_eq]
      exact ⟨Or.inr (by simp), h1⟩
    · simp only [pyReplaceAtList, if_neg hc]
      exact atFollowedByZWJ_cons c _ hc ih

/-! ### Claims about the Entry model -/

/-- Claim C4: `Entry.id` returns the advisory's `id` field exactly when a
truthy advisory is present, and otherwise (key absent, or present but falsy)
the string `"Crate {package.name} {package.version}"`. As a Lean function of
the entry value alone it is pure and deterministic by construction. -/
theorem c4_entry_id (a : Advisory) (pkg : Package) (vers : Versions)
    (et : EntryType) (wt : Option String) :
    Entry.id { entry := { advisory := .present a, package := pkg, versions := vers },
               entry_type := et, warning_type := wt } = a.id
    ∧ Entry.id { entry := { advisory := .absent, package := pkg, versions := vers },
                 entry_type := et, warning_type := wt }
        = "Crate " ++ pkg.name ++ " " ++ pkg.version
    ∧ Entry.id { entry := { advisory := .falsy, package := pkg, versions := vers },
                 entry_type := et, warning_type := wt }
        = "Crate " ++ pkg.name ++ " " ++ pkg.version :=
  ⟨rfl, rfl, rfl⟩

/-- Claim C9: an entry whose raw record binds the `"advisory"` key to a falsy
value (such as the empty mapping) behaves in `id`, `format_as_markdown` and
`format_as_issue` exactly like an entry with no `"advisory"` key at all, and
takes the `"Crate {name} {version}"` identity: `self.entry.get("advisory",
None)` followed by `if advisory:` tests truthiness, not key membership. -/
theorem c9_falsy_advisory_like_absent (pkg : Package) (vers : Versions)
    (et : EntryType) (wt : Option String) (labels assignees : List String) :
    Entry.id { entry := { advisory := .falsy, package := pkg, versions := vers },
               entry_type := et, warning_type := wt }
      = Entry.id { entry := { advisory := .absent, package := pkg, versions := vers },
                   entry_type := et, warning_type := wt }
    ∧ Entry.format_as_markdown
        { entry := { advisory := .falsy, package := pkg, versions := vers },
          entry_type := et, warning_type := wt }
      = Entry.format_as_markdown
        { entry := { advisory := .absent, package := pkg, versions := vers },
          entry_type := et, warning_type := wt }
    ∧ Entry.format_as_issue
        { entry := { advisory := .falsy, package := pkg, versions := vers },
          entry_type := et, warning_type := wt } labels assignees
      = Entry.format_as_issue
        { entry := { advisory := .absent, package := pkg, versions := vers },
          entry_type := et, warning_type := wt } labels assignees
    ∧ Entry.id { entry := { advisory := .falsy, package := pkg, versions := vers },
                 entry_type := et, warning_type := wt }
        = "Crate " ++ pkg.name ++ " " ++ pkg.version :=
  ⟨rfl, rfl, rfl, rfl⟩

/-- Advisory of the C5 counterexample: a description containing an `@`. -/
def c5_advisory : Advisory :=
  { id := "RUSTSEC-2024-0001", package := "p", url := "u",
    title := "T", description := "a@b", aliases := [], related := [] }

/-- Entry of the C5 counterexample. -/
def c5_entry : Entry :=
  { entry := { advisory := .present c5_advisory,
               package := { name := "p", version := "1" },
               versions := { patched := [], unaffected := [] } },
    entry_type := .ERROR, warning_type := none }

/-- Claim C5 counterexample: for an advisory whose description is `"a@b"`,
the issue body produced by `format_as_issue` is not a substring of the
markdown produced by `format_as_markdown` at all — so it is not the markdown
content with only the header line and icon omitted. The description appears
verbatim (`"a@b"`) in the issue body but only `@`-mangled in the markdown. -/
theorem c5_counterexample :
    strContains (Entry.format_as_markdown c5_entry)
        ((Entry.format_as_issue c5_entry [] []).body) = false
    ∧ strContains ((Entry.format_as_issue c5_entry [] []).body) "a@b" = true
    ∧ strContains (Entry.format_as_markdown c5_entry) "a@b" = false := by
  decide

/-- Claim C5, amended: `format_as_issue` reshapes the same content as
`format_as_markdown` — title `"<id()>: <advisory.title>"` (advisory case) or
`"<id()> is yanked"` (no advisory), body the entry table followed by the
description — except that the body carries the advisory description verbatim
(the markdown applies the `@`-to-zero-width-joiner replacement, the issue
body does not) and does not include the markdown's surrounding blank line
and trailing newline. -/
theorem c5_issue_reshapes_markdown_amended (a : Advisory) (pkg : Package)
    (vers : Versions) (et : EntryType) (wt : Option String)
    (labels assignees : List String) :
    (Entry.format_as_issue
        { entry := { advisory := .present a, package := pkg, versions := vers },
          entry_type := et, warning_type := wt } labels assignees).title
      = a.id ++ ": " ++ a.title
    ∧ (Entry.format_as_issue
        { entry := { advisory := .present a, package := pkg, versions := vers },
          entry_type := et, warning_type := wt } labels assignees).body
      = Entry.entry_table
          { entry := { advisory := .present a, package := pkg, versions := vers },
            entry_type := et, warning_type := wt } ++ "\n\n" ++ a.description
    ∧ Entry.format_as_markdown
        { entry := { advisory := .present a, package := pkg, versions := vers },
          entry_type := et, warning_type := wt }
      = "## " ++ et.icon ++ " " ++ a.id ++ ": " ++ a.title ++ "\n\n"
          ++ Entry.entry_table
              { entry := { advisory := .present a, package := pkg, versions := vers },
                entry_type := et, warning_type := wt }
          ++ "\n\n" ++ pyReplaceAt a.description ++ "\n"
    ∧ (Entry.format_as_issue
        { entry := { advisory := .absent, package := pkg, versions := vers },
          entry_type := et, warning_type := wt } labels assignees).title
      = "Crate " ++ pkg.name ++ " " ++ pkg.version ++ " is yanked"
    ∧ (Entry.format_as_issue
        { entry := { advisory := .absent, package := pkg, versions := vers },
          entry_type := et, warning_type := wt } labels assignees).body
      = "Switch to a different version of `" ++ pkg.name
          ++ "` to resolve this issue."
    ∧ Entry.format_as_markdown
        { entry := { advisory := .absent, package := pkg, versions := vers },
          entry_type := et, warning_type := wt }
      = "## " ++ et.icon ++ " "
          ++ ("Crate " ++ pkg.name ++ " " ++ pkg.version)
          ++ " is yanked.\n\nSwitch to a different version of `" ++ pkg.name
          ++ "` to resolve this issue.\n" :=
  ⟨rfl, rfl, rfl, rfl, rfl, rfl⟩

/-- Advisory of the C7 check: description `"user@example.com"`. -/
def c7_advisory : Advisory :=
  { id := "RUSTSEC-2024-0001", package := "foo", url := "https://u",
    title := "T", description := "user@example.com",
    aliases := [], related := [] }

/-- Entry of the C7 check. -/
def c7_entry : Entry :=
  { entry := { advisory := .present c7_advisory,
               package := { name := "foo", version := "1.0.0" },
               versions := { patched := ["1.0.1"], unaffected := [] } },
    entry_type := .ERROR, warning_type := none }

/-- Claim C7: the `@`-replacement applied to the description in
`format_as_markdown` leaves every `'@'` immediately followed by the
zero-width joiner, for every description; concretely, the markdown of an
entry whose description is `"user@example.com"` contains
`"user@‍example.com"` and does not contain the literal
`"user@example.com"` (no `@` directly followed by the original suffix). -/
theorem c7_at_replacement :
    (∀ s : String, atFollowedByZWJ (pyReplaceAtList s.data) = true)
    ∧ strContains (Entry.format_as_markdown c7_entry)
        "user@‍example.com" = true
    ∧ strContains (Entry.format_as_markdown c7_entry)
        "user@example.com" = false := by
  refine ⟨fun s => pyReplaceAtList_atFollowed s.data, ?_, ?_⟩ <;> decide

/-! ### Claim C6: the summary builder -/

/-- Written from the claim's wording: the vulnerability-count sentence with
0/1/N pluralization. -/
def vulnSentenceSpec (n : Nat) : String :=
  if n = 0 then "No vulnerabilities found."
  else if n = 1 then "1 vulnerability found."
  else toString n ++ " vulnerabilities found."

/-- Written from the claim's wording: the warning-count sentence with 0/1/N
pluralization and, for more than one warning, a parenthetical breakdown
`"<count>x <kind>"` comma-joined per kind in original key order. -/
def warnSentenceSpec (kinds : List (String × Nat)) : String :=
  let total : Nat := (kinds.map Prod.snd).sum
  if total = 0 then "No warnings found."
  else if total = 1 then "1 warning found."
  else
    toString total ++ " warnings found ("
      ++ String.intercalate ", "
          (kinds.map (fun kc => toString kc.2 ++ "x " ++ kc.1))
      ++ ")."

/-- Written from the claim's wording: the summary is the two sentences
separated by one space, over the vulnerability count and the per-kind
warning counts. -/
def create_summary_spec (data : Report) : String :=
  vulnSentenceSpec data.vulnerabilities.count ++ " "
    ++ warnSentenceSpec (data.warnings.map (fun kw => (kw.1, kw.2.length)))

theorem intercalate_pair (a b : String) :
    String.intercalate " " [a, b] = a ++ " " ++ b := rfl

theorem foldl_add_length (l : List (String × List RawEntry)) (n : Nat) :
    l.foldl (fun acc kw => acc + kw.2.length) n
      = n + (l.map (fun kw => kw.2.length)).sum := by
  induction l generalizing n with
  | nil => simp
  | cons kw rest ih => simp [List.foldl_cons, ih, Nat.add_assoc]

theorem num_warnings_eq (l : List (String × List RawEntry)) :
    l.foldl (fun acc kw => acc + kw.2.length) 0
      = ((l.map (fun kw => (kw.1, kw.2.length))).map Prod.snd).sum := by
  rw [foldl_add_length, Nat.zero_add, List.map_map]
  rfl

/-- Claim C6: `create_summary` is a pure function of the report equal to the
sentence-by-sentence description of the claim (`create_summary_spec`), and on
a report with `vulnerabilities.count = 0` and empty `warnings` it returns
exactly `"No vulnerabilities found. No warnings found."` whatever the
(unread) vulnerability list contains. -/
theorem c6_summary (data : Report) :
    create_summary data = create_summary_spec data
    ∧ (∀ vl : List RawEntry,
        create_summary
          { vulnerabilities := { count := 0, list := vl }, warnings := [] }
          = "No vulnerabilities found. No warnings found.") := by
  constructor
  · unfold create_summary create_summary_spec vulnSentenceSpec warnSentenceSpec
    rw [intercalate_pair, num_warnings_eq]
  · intro vl
    rfl

/-! ### Claim C3: deny-warnings promotion and exit status -/

theorem entryType_beq_iff (a b : EntryType) : (a == b) = true ↔ a = b := by
  cases a <;> cases b <;> decide

theorem exit_code_eq_one_iff (entries : List Entry) :
    exit_code entries = 1 ↔ ∃ e ∈ entries, e.entry_type = EntryType.ERROR := by
  unfold exit_code
  by_cases h : entries.any (fun e => e.entry_type == EntryType.ERROR) = true
  · simp only [if_pos h, true_iff]
    obtain ⟨e, he, hp⟩ := List.any_eq_true.mp h
    exact ⟨e, he, (entryType_beq_iff _ _).mp hp⟩
  · simp only [if_neg h]
    constructor
    · intro h01; exact absurd h01 (by decide)
    · intro ⟨e, he, hp⟩
      exact absurd (List.any_eq_true.mpr ⟨e, he, (entryType_beq_iff _ _).mpr hp⟩) h

theorem promote_true_all_error (entries : List Entry) :
    ∀ e ∈ promote true entries, e.entry_type = EntryType.ERROR := by
  intro e he
  rw [show promote true entries
      = entries.map (fun e => { e with entry_type := .ERROR }) from rfl] at he
  obtain ⟨e0, -, rfl⟩ := List.mem_map.mp he
  rfl

theorem create_entries_ne_nil (data : Report)
    (h : data.vulnerabilities.list ≠ [] ∨ ∃ kw ∈ data.warnings, kw.2 ≠ []) :
    create_entries data ≠ [] := by
  unfold create_entries
  intro hnil
  rw [List.append_eq_nil] at hnil
  obtain ⟨h1, h2⟩ := hnil
  rcases h with hv | ⟨kw, hkw, hw⟩
  · exact hv (List.map_eq_nil_iff.mp h1)
  · obtain ⟨w, hwmem⟩ := List.exists_mem_of_ne_nil _ hw
    have : ({ entry := w, entry_type := .WARNING, warning_type := some kw.1 } : Entry)
        ∈ data.warnings.flatMap
            (fun kw => kw.2.map
              (fun w => { entry := w, entry_type := .WARNING, warning_type := some kw.1 })) :=
      List.mem_flatMap.mpr ⟨kw, hkw, List.mem_map.mpr ⟨w, hwmem, rfl⟩⟩
    rw [h2] at this
    exact absurd this (List.not_mem_nil _)

/-- Claim C3: the exit step returns 0 exactly when no entry has final type
ERROR and 1 exactly when some entry does; with the deny-warnings policy
active every entry is promoted to ERROR (none remains WARNING), so the exit
status is 1 whenever the report contains at least one vulnerability or at
least one warning. -/
theorem c3_exit_status (data : Report) (deny_warnings : Bool) :
    ((∀ e ∈ promote deny_warnings (create_entries data),
        e.entry_type ≠ EntryType.ERROR) →
      exit_code (promote deny_warnings (create_entries data)) = 0)
    ∧ ((∃ e ∈ promote deny_warnings (create_entries data),
        e.entry_type = EntryType.ERROR) →
      exit_code (promote deny_warnings (create_entries data)) = 1)
    ∧ (deny_warnings = true →
        ∀ e ∈ promote deny_warnings (create_entries data),
          e.entry_type = EntryType.ERROR)
    ∧ (deny_warnings = true →
        (data.vulnerabilities.list ≠ [] ∨ ∃ kw ∈ data.warnings, kw.2 ≠ []) →
        exit_code (promote deny_warnings (create_entries data)) = 1) := by
  refine ⟨?_, ?_, ?_, ?_⟩
  · intro h
    unfold exit_code
    rw [if_neg]
    intro hany
    obtain ⟨e, he, hp⟩ := List.any_eq_true.mp hany
    exact h e he ((entryType_beq_iff _ _).mp hp)
  · intro h
    exact (exit_code_eq_one_iff _).mpr h
  · intro hd
    subst hd
    exact promote_true_all_error _
  · intro hd hne
    subst hd
    have hnil : promote true (create_entries data) ≠ [] := by
      rw [show promote true (create_entries data)
          = (create_entries data).map (fun e => { e with entry_type := .ERROR })
          from rfl]
      intro hmapnil
      exact create_entries_ne_nil data hne (List.map_eq_nil_iff.mp hmapnil)
    obtain ⟨e, he⟩ := List.exists_mem_of_ne_nil _ hnil
    exact (exit_code_eq_one_iff _).mpr ⟨e, he, promote_true_all_error _ e he⟩

/-- Raw record for a yanked-package warning, used in concrete C3 inputs. -/
def c3_warning_record : RawEntry :=
  { advisory := .absent,
    package := { name := "foo", version := "1.0.0" },
    versions := { patched := [], unaffected := [] } }

/-- Report with no vulnerabilities and one `"yanked"` warning. -/
def c3_report_one_warning : Report :=
  { vulnerabilities := { count := 0, list := [] },
    warnings := [("yanked", [c3_warning_record])] }

/-- Report with nothing in it. -/
def c3_report_empty : Report :=
  { vulnerabilities := { count := 0, list := [] }, warnings := [] }

/-- Report with one vulnerability. -/
def c3_report_one_vuln : Report :=
  { vulnerabilities := { count := 1, list := [c3_warning_record] },
    warnings := [] }

/-- Witness for claim C3: at concrete reports, deny-warnings with one warning
exits 1 and promotes everything to ERROR; an empty report without
deny-warnings exits 0; a report with one vulnerability exits 1. -/
theorem c3_exit_status_witness :
    exit_code (promote true (create_entries c3_report_one_warning)) = 1
    ∧ (∀ e ∈ promote true (create_entries c3_report_one_warning),
        e.entry_type = EntryType.ERROR)
    ∧ exit_code (promote false (create_entries c3_report_empty)) = 0
    ∧ exit_code (promote false (create_entries c3_report_one_vuln)) = 1 :=
  ⟨(c3_exit_status c3_report_one_warning true).2.2.2 rfl
      (Or.inr ⟨("yanked", [c3_warning_record]), by decide, by decide⟩),
   (c3_exit_status c3_report_one_warning true).2.2.1 rfl,
   (c3_exit_status c3_report_empty false).1 (by decide),
   (c3_exit_status c3_report_one_vuln false).2.1 (by decide)⟩

/-! ### Claims C2, C8, C10: create_issue -/

theorem creationCount_map_probe (l : List String) :
    creationCount (l.map ApiCall.probe) = 0 := by
  unfold creationCount
  rw [List.countP_map]
  induction l with
  | nil => rfl
  | cons a rest ih => simp [List.countP_cons, ih]

theorem updateCount_map_probe (l : List String) :
    updateCount (l.map ApiCall.probe) = 0 := by
  unfold updateCount
  rw [List.countP_map]
  induction l with
  | nil => rfl
  | cons a rest ih => simp [List.countP_cons, ih]

theorem creationCount_append (a b : List ApiCall) :
    creationCount (a ++ b) = creationCount a + creationCount b :=
  List.countP_append _ _ _

theorem updateCount_append (a b : List ApiCall) :
    updateCount (a ++ b) = updateCount a + updateCount b :=
  List.countP_append _ _ _

theorem creationCount_create_singleton (t b : String) (l a : List String) :
    creationCount [ApiCall.create t b l a] = 1 := rfl

theorem updateCount_create_singleton (t b : String) (l a : List String) :
    updateCount [ApiCall.create t b l a] = 0 := rfl

/-- Issue used by the C2 counterexample and witness. -/
def c2_issue : Issue :=
  { title := "RUSTSEC-2024-0001: T"
    labels := []
    assignees := []
    body := "b"
    rustsec_id := "RUSTSEC-2024-0001" }

/-- Tracked issue identical to `c2_issue` in title and body. -/
def c2_matching : TrackedIssue :=
  { title := "RUSTSEC-2024-0001: T", body := "b", url := "u" }

/-- Claim C2 counterexample: with an empty working set (the issue does not
exist yet), two successive `create_issue` calls with the byte-identical issue
perform two creation calls, not one — `create_issue` reads but never extends
`existing_issues`, so the second call finds no match again. -/
theorem c2_counterexample :
    ¬ creationCount
        (create_issue (fun _ => true) [] c2_issue
          ++ create_issue (fun _ => true) [] c2_issue) = 1
    ∧ creationCount
        (create_issue (fun _ => true) [] c2_issue
          ++ create_issue (fun _ => true) [] c2_issue) = 2
    ∧ updateCount
        (create_issue (fun _ => true) [] c2_issue
          ++ create_issue (fun _ => true) [] c2_issue) = 0 := by
  refine ⟨by decide, by decide, by decide⟩

/-- Claim C2, amended: calling `create_issue` twice in succession with
byte-identical title and body is a no-op both times (zero creation and zero
update calls) when the working set already holds a tracked issue whose title
starts with the identity and matches title and body exactly; but when no
issue in the working set has the identity as a title prefix, each of the two
invocations issues its own creation call (two in total, zero updates),
because the newly created issue is not added to the working set. -/
theorem c2_idempotence_amended (valid : String → Bool)
    (existing : List TrackedIssue) (issue : Issue) :
    (findMatch issue.rustsec_id existing = none →
      creationCount
          (create_issue valid existing issue
            ++ create_issue valid existing issue) = 2
      ∧ updateCount
          (create_issue valid existing issue
            ++ create_issue valid existing issue) = 0)
    ∧ (∀ ex : TrackedIssue, findMatch issue.rustsec_id existing = some ex →
        ex.title = issue.title → ex.body = issue.body →
        create_issue valid existing issue
          ++ create_issue valid existing issue = []) := by
  constructor
  · intro h
    have hone : create_issue valid existing issue
        = issue.assignees.map ApiCall.probe
          ++ [ApiCall.create issue.title issue.body issue.labels
                (issue.assignees.filter valid)] := by
      unfold create_issue
      rw [h]
    rw [hone]
    constructor
    · rw [creationCount_append, creationCount_append,
        creationCount_map_probe, creationCount_create_singleton]
    · rw [updateCount_append, updateCount_append,
        updateCount_map_probe, updateCount_create_singleton]
  · intro ex h ht hb
    have hone : create_issue valid existing issue = [] := by
      unfold create_issue
      rw [h]
      show (if ex.title = issue.title ∧ ex.body = issue.body then ([] : List ApiCall)
            else [ApiCall.update ex.url issue.title issue.body]) = []
      rw [if_pos ⟨ht, hb⟩]
    rw [hone]
    rfl

/-- Witness for claim C2's amended theorem: concretely, two calls on the empty
working set create twice, and two calls with an exactly matching tracked
issue in the working set do nothing. -/
theorem c2_idempotence_amended_witness :
    creationCount
        (create_issue (fun _ => true) [] c2_issue
          ++ create_issue (fun _ => true) [] c2_issue) = 2
    ∧ create_issue (fun _ => true) [c2_matching] c2_issue
        ++ create_issue (fun _ => true) [c2_matching] c2_issue = [] :=
  ⟨((c2_idempotence_amended (fun _ => true) [] c2_issue).1 rfl).1,
   (c2_idempotence_amended (fun _ => true) [c2_matching] c2_issue).2
     c2_matching (by decide) rfl rfl⟩

/-- Claim C8: when no tracked issue in the working set has the identity as a
title prefix, `create_issue` probes each requested assignee in order and then
creates the issue with the given title, body, labels, and exactly the
assignees whose probe succeeded — an assignee whose probe fails is dropped
while all others are kept, and creation still happens. -/
theorem c8_assignee_filtering (valid : String → Bool)
    (existing : List TrackedIssue) (issue : Issue)
    (h : findMatch issue.rustsec_id existing = none) :
    create_issue valid existing issue
      = issue.assignees.map ApiCall.probe
        ++ [.create issue.title issue.body issue.labels
              (issue.assignees.filter valid)]
    ∧ ∀ a : String,
        a ∈ issue.assignees.filter valid
          ↔ (a ∈ issue.assignees ∧ valid a = true) := by
  constructor
  · unfold create_issue
    rw [h]
  · intro a
    exact List.mem_filter

/-- Issue used by the C8 witness: three requested assignees. -/
def c8_issue : Issue :=
  { title := "RUSTSEC-2024-0002: U"
    labels := ["security"]
    assignees := ["alice", "ghost", "bob"]
    body := "b8"
    rustsec_id := "RUSTSEC-2024-0002" }

/-- Witness for claim C8: with a probe that rejects exactly `"ghost"`, the
issue is still created, with `"ghost"` dropped and `"alice"`, `"bob"` kept. -/
theorem c8_assignee_filtering_witness :
    create_issue (fun a => a != "ghost") [] c8_issue
      = [.probe "alice", .probe "ghost", .probe "bob",
         .create "RUSTSEC-2024-0002: U" "b8" ["security"] ["alice", "bob"]] :=
  ((c8_assignee_filtering (fun a => a != "ghost") [] c8_issue rfl).1).trans
    (by decide)

theorem findMatch_append_first (rustsec_id : String) (before : List TrackedIssue)
    (m : TrackedIssue) (post : List TrackedIssue)
    (hpre : ∀ i ∈ before, pyStartsWith i.title rustsec_id = false)
    (hm : pyStartsWith m.title rustsec_id = true) :
    findMatch rustsec_id (before ++ m :: post) = some m := by
  induction before with
  | nil => simp [findMatch, hm]
  | cons i rest ih =>
    have hi := hpre i (by simp)
    rw [List.cons_append]
    unfold findMatch
    rw [hi]
    exact ih (fun j hj => hpre j (List.mem_cons_of_mem i hj))

/-- Claim C10: `create_issue` acts on at most the first issue of the working
set whose title starts with the identity: it skips when that issue matches
title and body exactly and otherwise issues a single update to that issue's
url, and its behavior is unchanged whatever follows that first match in the
working set. -/
theorem c10_first_match_only (valid : String → Bool)
    (before post : List TrackedIssue) (m : TrackedIssue) (issue : Issue)
    (hpre : ∀ i ∈ before, pyStartsWith i.title issue.rustsec_id = false)
    (hm : pyStartsWith m.title issue.rustsec_id = true) :
    create_issue valid (before ++ m :: post) issue
      = (if m.title = issue.title ∧ m.body = issue.body then []
         else [.update m.url issue.title issue.body])
    ∧ ∀ post' : List TrackedIssue,
        create_issue valid (before ++ m :: post') issue
          = create_issue valid (before ++ m :: post) issue := by
  have key : ∀ tail : List TrackedIssue,
      create_issue valid (before ++ m :: tail) issue
        = (if m.title = issue.title ∧ m.body = issue.body then []
           else [.update m.url issue.title issue.body]) := by
    intro tail
    unfold create_issue
    rw [findMatch_append_first issue.rustsec_id before m tail hpre hm]
  exact ⟨key post, fun post' => (key post').trans (key post).symm⟩

/-- Working-set items of the C10 witness: one non-matching issue, then two
whose titles start with the identity. -/
def c10_before : TrackedIssue := { title := "Crate x 1", body := "", url := "u1" }

/-- First match of the C10 witness (differs in body, so it gets updated). -/
def c10_m : TrackedIssue := { title := "RUSTSEC-2024-0003: V", body := "old", url := "u2" }

/-- Later match of the C10 witness (must never be touched). -/
def c10_later : TrackedIssue := { title := "RUSTSEC-2024-0003: W", body := "", url := "u3" }

/-- Issue of the C10 witness. -/
def c10_issue : Issue :=
  { title := "RUSTSEC-2024-0003: V"
    labels := []
    assignees := []
    body := "new"
    rustsec_id := "RUSTSEC-2024-0003" }

/-- Witness for claim C10: with a later issue also matching the identity, the
only call is a single update to the first match's url. -/
theorem c10_first_match_only_witness :
    create_issue (fun _ => true) ([c10_before] ++ c10_m :: [c10_later]) c10_issue
      = [.update "u2" "RUSTSEC-2024-0003: V" "new"] :=
  ((c10_first_match_only (fun _ => true) [c10_before] [c10_later] c10_m c10_issue
      (by decide) (by decide)).1).trans (by decide)

/-! ### Claim C1: the reconciliation sweep -/

/-- Advisory of the C1 failing input. -/
def c1_advisory : Advisory :=
  { id := "RUSTSEC-2024-0001", package := "foo", url := "https://u",
    title := "T", description := "d", aliases := [], related := [] }

/-- The single current entry of the C1 failing input. -/
def c1_entry : Entry :=
  { entry := { advisory := .present c1_advisory,
               package := { name := "foo", version := "1.0.0" },
               versions := { patched := [], unaffected := [] } },
    entry_type := .ERROR, warning_type := none }

/-- First tracked issue of the C1 failing input; its title starts with the
current entry's id. -/
def c1_issue_a : TrackedIssue :=
  { title := "RUSTSEC-2024-0001: a", body := "", url := "uA" }

/-- Second tracked issue of the C1 failing input; its title also starts with
the current entry's id. -/
def c1_issue_b : TrackedIssue :=
  { title := "RUSTSEC-2024-0001: b", body := "", url := "uB" }

/-- Claim C1 fails on the code: the sweep removes list elements while
iterating the same list, so after removing the first matching issue the
cursor skips the issue that slides into its slot. With one current entry of
id `"RUSTSEC-2024-0001"` and a working set of two tracked issues whose titles
both start with that id, the second issue survives the sweep and is closed,
although the claim requires every tracked issue whose title starts with a
current entry's id to be left open. -/
theorem c1_sweep_closes_tracked_issue :
    sweep [c1_entry] [c1_issue_a, c1_issue_b] = [c1_issue_b]
    ∧ closeCalls [c1_entry] [c1_issue_a, c1_issue_b] = [ApiCall.close "uB"]
    ∧ pyStartsWith c1_issue_b.title (Entry.id c1_entry) = true := by
  refine ⟨by decide, by decide, by decide⟩

end Audit
